import Mathlib

/-!
Verification of the client-side application store and adapter layer of the
AI-powered Railway Decision-Support Dashboard.

The definitions below are a shallow embedding of the TypeScript source:
  * `stores/useStore.ts` (the Zustand store: recommendation decisions,
    chat actions, fetch actions, `addAuditLog`),
  * `services/auditService.ts` (`createAuditLog`, `postAudit`),
  * `services/chatbotAdapter.ts` (`sendChatMessage`),
  * `services/adapterBase.ts` (`apiFetch` header handling),
  * `app/api/audit/route.ts` (`POST` and `PUT` handlers),
  * `app/api/chat/route.ts` (`generateAIResponse`),
  * `services/mockData.ts` (the seeded mock entities).

Asynchronous network outcomes are passed in as explicit parameters
(`Except Unit …` for awaited calls that can reject, `Bool` for "the awaited
postAudit succeeded").  Runtime clock reads (`Date.now()`,
`new Date().toISOString()`) and `Math.random()` draws are passed in as
explicit `Nat`/`String` parameters.  Each store action returns the ordered
list of states produced by its successive `set` calls (its observable
trace) together with an optional thrown error, so that atomicity claims
can be stated over every intermediate state.  Long chatbot prose is
abbreviated (message list shape, roles, ids, intents and confidences are
kept exactly); no claim depends on the abbreviated prose.
-/

namespace Railway

/-- A rational written as an explicit reduced fraction, so that kernel
reduction (and hence `decide`) works on the numeric literals of the
embedded data. -/
def ratDec (n : Int) (d : Nat) (hd : d ≠ 0 := by norm_num)
    (hc : n.natAbs.Coprime d := by norm_num) : ℚ :=
  ⟨n, d, hd, hc⟩

/-- `status` enum of `Recommendation` in `lib/types.ts`. -/
inductive RecStatus where
  | pending
  | accepted
  | rejected
  | expired
deriving DecidableEq

/-- `role` enum of `ChatbotMessage` in `lib/types.ts`. -/
inductive ChatRole where
  | user
  | assistant
  | system
deriving DecidableEq

/-- KPI-impact vector carried by `Recommendation.kpis` and `Alternative.kpis`
(`lib/types.ts`).  Numeric fields are exact rationals. -/
structure KpiVector where
  delayReduction : ℚ
  throughput : ℚ
  safety : String
  cost : Option ℚ := none
  passengerImpact : Option ℚ := none
deriving DecidableEq

/-- `Alternative` from `lib/types.ts`. -/
structure Alternative where
  id : String
  action : String
  kpis : KpiVector
  description : Option String := none
  estimatedDuration : Option ℚ := none
  riskLevel : Option String := none
deriving DecidableEq

/-- `estimatedImpact` field of `Recommendation` (`lib/types.ts`). -/
structure EstimatedImpact where
  delayReduction : ℚ
  costSavings : ℚ
  passengerBenefit : ℚ
deriving DecidableEq

/-- `Recommendation` from `lib/types.ts`. -/
structure Recommendation where
  id : String
  trainId : Option String := none
  action : String
  rationale : String
  confidence : ℚ
  kpis : KpiVector
  alternatives : List Alternative
  createdAt : Option String := none
  priority : Option String := none
  status : Option RecStatus := none
  estimatedImpact : Option EstimatedImpact := none
deriving DecidableEq

/-- `Train` from `lib/types.ts`. -/
structure Train where
  id : String
  number : String
  origin : Option String := none
  destination : Option String := none
  scheduledArrival : Option String := none
  scheduledDeparture : Option String := none
  delayMinutes : Option Int := none
  status : Option String := none
  currentLocation : Option String := none
  capacity : Option Nat := none
  passengers : Option Nat := none
deriving DecidableEq

/-- `Prediction` from `lib/types.ts`. -/
structure Prediction where
  trainId : String
  delayMinutes : Int
  confidence : Option ℚ := none
  predictedArrival : Option String := none
  factors : List String := []
  modelVersion : Option String := none
deriving DecidableEq

/-- `KPI` from `lib/types.ts`. -/
structure KPI where
  name : String
  value : ℚ
  unit : Option String := none
  target : Option ℚ := none
  trend : Option String := none
  change : Option ℚ := none
  changePercent : Option ℚ := none
  status : Option String := none
deriving DecidableEq

/-- The `details` payload attached to audit entries by the store actions and
the audit route (`details: any` in `lib/types.ts`; the fields below are the
ones the decision actions of `stores/useStore.ts` actually write). -/
structure AuditDetails where
  recommendationId : Option String := none
  action : Option String := none
  alternativeId : Option String := none
  originalAction : Option String := none
  selectedAction : Option String := none
deriving DecidableEq

/-- `AuditLog` from `lib/types.ts` (impact metrics omitted: never written by
the embedded code paths). -/
structure AuditLog where
  id : String
  timestamp : String
  recId : Option String := none
  trainId : Option String := none
  action : String
  actor : String
  reason : Option String := none
  details : Option AuditDetails := none
  outcome : Option String := none
deriving DecidableEq

/-- `Omit<AuditLog, 'id' | 'timestamp'>`: what `createAuditLog` returns and
`postAudit` receives (`services/auditService.ts`). -/
structure AuditLogBase where
  action : String
  actor : String
  details : Option AuditDetails := none
  trainId : Option String := none
  recId : Option String := none
  reason : Option String := none
  outcome : Option String := none
deriving DecidableEq

/-- `ChatbotMessage` from `lib/types.ts` (references list omitted: no embedded
code path reads it). -/
structure ChatMessage where
  id : String
  role : ChatRole
  text : String
  timestamp : String
  intent : Option String := none
  confidence : Option ℚ := none
  actionable : Option Bool := none
deriving DecidableEq

/-- `ChatSession` from `lib/types.ts`. -/
structure ChatSession where
  sessionId : String
  messages : List ChatMessage
  createdAt : String
  lastActive : String
deriving DecidableEq

/-- `lastUpdated` record of the store state (`lib/types.ts` `StoreState`):
note it has keys only for trains, recommendations, predictions and kpis. -/
structure LastUpdated where
  trains : Option String := none
  recommendations : Option String := none
  predictions : Option String := none
  kpis : Option String := none
deriving DecidableEq

/-- `FilterState` from `lib/types.ts`. -/
structure FilterState where
  dateRangeStart : Option String := none
  dateRangeEnd : Option String := none
  trainIds : List String := []
  status : List String := []
  priority : List String := []
deriving DecidableEq

/-- `StoreState` from `lib/types.ts`, as initialised and mutated by
`stores/useStore.ts`. -/
structure StoreState where
  trains : List Train := []
  recommendations : List Recommendation := []
  predictions : List Prediction := []
  auditLogs : List AuditLog := []
  kpis : List KPI := []
  chatSessions : List ChatSession := []
  loading : Bool := false
  error : Option String := none
  selectedTrains : List String := []
  activeFilters : FilterState := {}
  lastUpdated : LastUpdated := {}
deriving DecidableEq

/-- Errors a store action can throw. -/
inductive ActionError where
  | notFound
  | auditFailed
deriving DecidableEq

/-- Result of running one store action: the ordered list of states produced
by its successive `set` calls, plus the error it rethrows, if any. -/
structure ActionResult where
  trace : List StoreState
  err : Option ActionError
deriving DecidableEq

/-- The state the store is left in after the action: the last committed
state, or the initial state when the action committed nothing. -/
def ActionResult.final (st : StoreState) (r : ActionResult) : StoreState :=
  r.trace.getLast?.getD st

/-- `createAuditLog` from `services/auditService.ts`: builds the
id/timestamp-less entry with `outcome: 'success'`. -/
def createAuditLog (action actor : String) (details : Option AuditDetails)
    (trainId recId reason : Option String) : AuditLogBase :=
  { action := action
    actor := actor
    details := details
    trainId := trainId
    recId := recId
    reason := reason
    outcome := some "success" }

/-- Attach the store-side id and timestamp exactly as the decision actions
do: `{ ...auditLog, id: 'audit-' + Date.now(), timestamp: toISOString() }`. -/
def stampStoreAudit (base : AuditLogBase) (nowMs : Nat) (now : String) : AuditLog :=
  { id := "audit-" ++ toString nowMs
    timestamp := now
    recId := base.recId
    trainId := base.trainId
    action := base.action
    actor := base.actor
    reason := base.reason
    details := base.details
    outcome := base.outcome }

/-- `acceptRecommendation` from `stores/useStore.ts`.  `auditOk` is the
outcome of the awaited `postAudit` call; `nowMs`/`now` are the clock reads
used for the locally stored audit entry. -/
def acceptRecommendation (st : StoreState) (recId : String) (auditOk : Bool)
    (nowMs : Nat) (now : String) : ActionResult :=
  match st.recommendations.find? (fun r => r.id == recId) with
  | none => ⟨[], some ActionError.notFound⟩
  | some recommendation =>
    let s1 : StoreState := { st with loading := true, error := none }
    let auditLog := createAuditLog "Recommendation Accepted" "System User"
      (some { recommendationId := some recId, action := some recommendation.action })
      recommendation.trainId (some recId) (some "User accepted AI recommendation")
    if auditOk then
      let updatedRecommendations := st.recommendations.map (fun r =>
        if r.id == recId then { r with status := some RecStatus.accepted } else r)
      let s2 : StoreState := { s1 with
        recommendations := updatedRecommendations
        auditLogs := stampStoreAudit auditLog nowMs now :: st.auditLogs
        loading := false }
      ⟨[s1, s2], none⟩
    else
      let s2 : StoreState := { s1 with
        error := some "Failed to accept recommendation", loading := false }
      ⟨[s1, s2], some ActionError.auditFailed⟩

/-- `overrideRecommendation` from `stores/useStore.ts`. -/
def overrideRecommendation (st : StoreState) (recId altId : String)
    (auditOk : Bool) (nowMs : Nat) (now : String) : ActionResult :=
  match st.recommendations.find? (fun r => r.id == recId) with
  | none => ⟨[], some ActionError.notFound⟩
  | some recommendation =>
    match recommendation.alternatives.find? (fun a => a.id == altId) with
    | none => ⟨[], some ActionError.notFound⟩
    | some alternative =>
      let s1 : StoreState := { st with loading := true, error := none }
      let auditLog := createAuditLog "Recommendation Overridden" "System User"
        (some { recommendationId := some recId
                alternativeId := some altId
                originalAction := some recommendation.action
                selectedAction := some alternative.action })
        recommendation.trainId (some recId)
        (some ("User selected alternative: " ++ alternative.action))
      if auditOk then
        let updatedRecommendations := st.recommendations.map (fun r =>
          if r.id == recId then
            { r with status := some RecStatus.accepted, action := alternative.action }
          else r)
        let s2 : StoreState := { s1 with
          recommendations := updatedRecommendations
          auditLogs := stampStoreAudit auditLog nowMs now :: st.auditLogs
          loading := false }
        ⟨[s1, s2], none⟩
      else
        let s2 : StoreState := { s1 with
          error := some "Failed to override recommendation", loading := false }
        ⟨[s1, s2], some ActionError.auditFailed⟩

/-- `rejectRecommendation` from `stores/useStore.ts`. -/
def rejectRecommendation (st : StoreState) (recId reason : String)
    (auditOk : Bool) (nowMs : Nat) (now : String) : ActionResult :=
  match st.recommendations.find? (fun r => r.id == recId) with
  | none => ⟨[], some ActionError.notFound⟩
  | some recommendation =>
    let s1 : StoreState := { st with loading := true, error := none }
    let auditLog := createAuditLog "Recommendation Rejected" "System User"
      (some { recommendationId := some recId, action := some recommendation.action })
      recommendation.trainId (some recId) (some reason)
    if auditOk then
      let updatedRecommendations := st.recommendations.map (fun r =>
        if r.id == recId then { r with status := some RecStatus.rejected } else r)
      let s2 : StoreState := { s1 with
        recommendations := updatedRecommendations
        auditLogs := stampStoreAudit auditLog nowMs now :: st.auditLogs
        loading := false }
      ⟨[s1, s2], none⟩
    else
      let s2 : StoreState := { s1 with
        error := some "Failed to reject recommendation", loading := false }
      ⟨[s1, s2], some ActionError.auditFailed⟩

/-- The status of the recommendation with the given id, `none` when absent
(outer option), read off a store state. -/
def statusOf (st : StoreState) (recId : String) : Option (Option RecStatus) :=
  (st.recommendations.find? (fun r => r.id == recId)).map (fun r => r.status)

/-- The action text of the recommendation with the given id. -/
def actionOf (st : StoreState) (recId : String) : Option String :=
  (st.recommendations.find? (fun r => r.id == recId)).map (fun r => r.action)

/-- `recId` referenced by the head entry of the audit log collection. -/
def auditHeadRecId (st : StoreState) : Option (Option String) :=
  st.auditLogs.head?.map (fun l => l.recId)

/-- Spec predicate for audit-failure behaviour of a decision action: the
action rethrows the audit failure, the target status is unchanged, the
store error is set and loading is cleared. -/
def auditFailureGate (st : StoreState) (recId : String) (r : ActionResult) : Prop :=
  r.err = some ActionError.auditFailed ∧
  statusOf (r.final st) recId = statusOf st recId ∧
  (r.final st).error.isSome = true ∧
  (r.final st).loading = false

/-- `alt-001` of `mockAlternatives` in `services/mockData.ts`. -/
def mockAlt1 : Alternative :=
  { id := "alt-001"
    action := "Reroute via Oxford"
    description := some "Alternative route through Oxford to avoid congestion at Reading"
    kpis := { delayReduction := 8, throughput := 95, safety := "high"
              cost := some 1200, passengerImpact := some 15 }
    estimatedDuration := some 45
    riskLevel := some "low" }

/-- `alt-002` of `mockAlternatives` in `services/mockData.ts`. -/
def mockAlt2 : Alternative :=
  { id := "alt-002"
    action := "Priority scheduling at next junction"
    description := some "Give train priority at next signal to minimize further delays"
    kpis := { delayReduction := 5, throughput := 88, safety := "medium"
              cost := some 300, passengerImpact := some 8 }
    estimatedDuration := some 15
    riskLevel := some "medium" }

/-- `mockAlternatives` from `services/mockData.ts`. -/
def mockAlternatives : List Alternative := [mockAlt1, mockAlt2]

/-- `rec-001` of `mockRecommendations` in `services/mockData.ts`
(`createdAt` is a runtime clock read there; a fixed stand-in is used). -/
def mockRec1 : Recommendation :=
  { id := "rec-001"
    trainId := some "train-001"
    action := "Implement dynamic rerouting for IC-2847"
    rationale := "Train IC-2847 is experiencing 12-minute delay due to signal failure at Reading. Rerouting via Oxford will reduce delay and improve overall network throughput."
    confidence := ratDec 87 100
    kpis := { delayReduction := 8, throughput := 95, safety := "high"
              cost := some 1200, passengerImpact := some 15 }
    alternatives := mockAlternatives
    createdAt := some "2026-01-01T00:00:00.000Z"
    priority := some "high"
    status := some RecStatus.pending
    estimatedImpact := some { delayReduction := 8, costSavings := 2500, passengerBenefit := 287 } }

/-- `mockRecommendations` from `services/mockData.ts`. -/
def mockRecommendations : List Recommendation := [mockRec1]

/-- A store holding the seeded mock recommendation, as after
`fetchRecommendations` against the mock route. -/
def mockStore : StoreState := { recommendations := mockRecommendations }

/-! ## Chat: chatbot adapter, mock AI route, store action -/

/-- Synthetic error text returned by the chat Domain Adapter
(`services/chatbotAdapter.ts`, catch branch of `sendChatMessage`). -/
def adapterErrorText : String :=
  "I apologize, but I\x27m experiencing technical difficulties. Please try again later or contact support if the issue persists."

/-- Synthetic error text the store itself would append
(`stores/useStore.ts`, catch branch of `sendChatMessage`). -/
def storeChatErrorText : String :=
  "Sorry, I encountered an error processing your message. Please try again."

/-- The single synthetic assistant message built in the adapter's catch
branch: id `error-$Date.now()`, confidence 0. -/
def syntheticAdapterMessage (nowMs : Nat) (now : String) : ChatMessage :=
  { id := "error-" ++ toString nowMs
    role := ChatRole.assistant
    text := adapterErrorText
    timestamp := now
    confidence := some 0 }

/-- `sendChatMessage` of `services/chatbotAdapter.ts`: returns the transport
payload on success; on any transport failure the catch branch returns the
one synthetic assistant message instead of rethrowing. -/
def chatbotAdapterSendE (transport : Except Unit (List ChatMessage))
    (nowMs : Nat) (now : String) : Except Unit (List ChatMessage) :=
  match transport with
  | Except.ok data => Except.ok data
  | Except.error _ => Except.ok [syntheticAdapterMessage nowMs now]

/-- `message.toLowerCase()`: character-wise lowering (structural, so that
concrete evaluation reduces). -/
def strToLower (s : String) : String :=
  String.mk (s.data.map Char.toLower)

/-- Contiguous-sublist test on character lists. -/
def listInfixOf (p : List Char) : List Char → Bool
  | [] => p.isEmpty
  | a :: t => p.isPrefixOf (a :: t) || listInfixOf p t

/-- `lowerMessage.includes(pat)` of `app/api/chat/route.ts`. -/
def strIncludes (hay pat : String) : Bool :=
  listInfixOf pat.data hay.data

/-- An assistant reply as built by the response generators of
`app/api/chat/route.ts`: id `msg-$Date.now()-ai`, role assistant. -/
def aiMessage (nowMs : Nat) (now text intent : String) (conf : ℚ)
    (act : Option Bool) : ChatMessage :=
  { id := "msg-" ++ toString nowMs ++ "-ai"
    role := ChatRole.assistant
    text := text
    timestamp := now
    intent := some intent
    confidence := some conf
    actionable := act }

/-- Reply prose of `generateExplanationResponse` (abbreviated). -/
def explanationText : String :=
  "I can explain the reasoning behind our recommendations. [prose abbreviated]"

/-- Reply prose of `generateSimulationResponse` (abbreviated). -/
def simulationText : String :=
  "I will run a simulation for the requested delay scenario. [prose abbreviated]"

/-- Reply prose of `generateKPIAnalysisResponse` (abbreviated). -/
def kpiAnalysisText : String :=
  "Here is the current KPI analysis. [prose abbreviated]"

/-- Reply prose of `generateTrainStatusResponse` (abbreviated). -/
def trainStatusText : String :=
  "Current train status overview. [prose abbreviated]"

/-- Reply prose of `generateHelpResponse` (abbreviated). -/
def helpText : String :=
  "I am here to help you with the Railway Decision-Support Dashboard. [prose abbreviated]"

/-- The three candidate replies of `generateGeneralResponse` (abbreviated);
one is picked with `Math.random()`. -/
def generalResponses : List String :=
  [ "I understand you are asking about railway operations. [prose abbreviated]"
  , "I am here to help with railway network analysis. [prose abbreviated]"
  , "That is an interesting question about our railway system. [prose abbreviated]" ]

/-- `generateAIResponse` of `app/api/chat/route.ts`: keyword intent dispatch
over the lower-cased message; every branch returns exactly one assistant
message.  `randIdx` models the `Math.random()` draw of the general branch. -/
def generateAIResponse (message : String) (nowMs randIdx : Nat) (now : String) :
    List ChatMessage :=
  let lower := strToLower message
  if strIncludes lower "why" && (strIncludes lower "recommend" || strIncludes lower "suggestion") then
    [aiMessage nowMs now explanationText "explain_recommendation" (ratDec 23 25) none]
  else if strIncludes lower "simulate" || strIncludes lower "what if" then
    [aiMessage nowMs now simulationText "run_simulation" (ratDec 89 100) (some true)]
  else if strIncludes lower "kpi" || strIncludes lower "performance" || strIncludes lower "metric" then
    [aiMessage nowMs now kpiAnalysisText "analyze_kpis" (ratDec 47 50) none]
  else if strIncludes lower "train" && (strIncludes lower "status" || strIncludes lower "delay") then
    [aiMessage nowMs now trainStatusText "get_train_status" (ratDec 24 25) none]
  else if strIncludes lower "help" || strIncludes lower "?" then
    [aiMessage nowMs now helpText "general_help" (ratDec 1 1) (some false)]
  else
    [aiMessage nowMs now (generalResponses.getD (randIdx % 3) "") "general" (ratDec 7 10) none]

/-- The optimistic user message of the store's `sendChatMessage`:
id `msg-$Date.now()-user`. -/
def userChatMessage (text : String) (nowMs : Nat) (now : String) : ChatMessage :=
  { id := "msg-" ++ toString nowMs ++ "-user"
    role := ChatRole.user
    text := text
    timestamp := now }

/-- `sendChatMessage` from `stores/useStore.ts`.  `adapterResult` is the
outcome of the awaited `chatbotService.sendChatMessage` call.  Set 1 appends
the user message (inserting the lazily built fallback session if the id is
absent); set 2 commits the assistant responses on success, or appends the
store's synthetic error message in the catch branch (which never rethrows). -/
def storeSendChatMessage (st : StoreState) (sessionId text : String)
    (adapterResult : Except Unit (List ChatMessage)) (nowMs : Nat) (now : String) :
    ActionResult :=
  let session : ChatSession :=
    match st.chatSessions.find? (fun s => s.sessionId == sessionId) with
    | some s => s
    | none => { sessionId := sessionId, messages := [], createdAt := now, lastActive := now }
  let userMessage := userChatMessage text nowMs now
  let updatedSession : ChatSession :=
    { session with messages := session.messages ++ [userMessage], lastActive := now }
  let insertedSessions : List ChatSession :=
    if st.chatSessions.any (fun s => s.sessionId == sessionId) then
      st.chatSessions.map (fun s => if s.sessionId == sessionId then updatedSession else s)
    else
      st.chatSessions ++ [updatedSession]
  let s1 : StoreState := { st with chatSessions := insertedSessions }
  match adapterResult with
  | Except.ok responses =>
    let finalSession : ChatSession :=
      { updatedSession with messages := updatedSession.messages ++ responses, lastActive := now }
    let committed := s1.chatSessions.map (fun s => if s.sessionId == sessionId then finalSession else s)
    let s2 : StoreState := { s1 with chatSessions := committed }
    ⟨[s1, s2], none⟩
  | Except.error _ =>
    let errorMessage : ChatMessage :=
      { id := "msg-" ++ toString nowMs ++ "-error"
        role := ChatRole.assistant
        text := storeChatErrorText
        timestamp := now }
    let appendErr := fun (s : ChatSession) => { s with messages := s.messages ++ [errorMessage] }
    let committed := s1.chatSessions.map (fun s => if s.sessionId == sessionId then appendErr s else s)
    let s2 : StoreState := { s1 with chatSessions := committed }
    ⟨[s1, s2], none⟩

/-- Session lookup by id in a store state. -/
def sessionFind (st : StoreState) (sid : String) : Option ChatSession :=
  st.chatSessions.find? (fun s => s.sessionId == sid)

/-- Message list of the session with the given id, when present. -/
def sessionMessages (st : StoreState) (sid : String) : Option (List ChatMessage) :=
  (sessionFind st sid).map (fun s => s.messages)

/-- One end-to-end `sendChatMessage` invocation: the message text, whether
the transport fails, the clock reads on the store side and on the
adapter/route side, and the random draw of the general reply branch. -/
structure ChatCall where
  text : String
  transportFails : Bool
  msStore : Nat
  msRemote : Nat
  randIdx : Nat
  tStore : String
  tRemote : String
deriving DecidableEq

/-- Transport outcome of one chat call: failure, or the mock chat route's
`generateAIResponse` payload. -/
def chatTransport (c : ChatCall) : Except Unit (List ChatMessage) :=
  if c.transportFails then Except.error ()
  else Except.ok (generateAIResponse c.text c.msRemote c.randIdx c.tRemote)

/-- What the chat Domain Adapter hands back to the store for one call. -/
def chatAdapterOutcome (c : ChatCall) : Except Unit (List ChatMessage) :=
  chatbotAdapterSendE (chatTransport c) c.msRemote c.tRemote

/-- The assistant messages the adapter resolves with for one call. -/
def adapterMsgs (c : ChatCall) : List ChatMessage :=
  if c.transportFails then [syntheticAdapterMessage c.msRemote c.tRemote]
  else generateAIResponse c.text c.msRemote c.randIdx c.tRemote

/-- Full pipeline for one chat call: store action fed with the adapter's
outcome for that call. -/
def chatPipeline (st : StoreState) (sid : String) (c : ChatCall) : ActionResult :=
  storeSendChatMessage st sid c.text (chatAdapterOutcome c) c.msStore c.tStore

/-- Store state after one complete chat call. -/
def chatCallFinal (sid : String) (st : StoreState) (c : ChatCall) : StoreState :=
  (chatPipeline st sid c).final st

/-- Store state after a sequence of complete chat calls on one session. -/
def chatSeqFinal (sid : String) (st : StoreState) (calls : List ChatCall) : StoreState :=
  calls.foldl (chatCallFinal sid) st

/-- The block of messages one call appends to its session: the user message
followed by the assistant response(s). -/
def callBlock (c : ChatCall) : List ChatMessage :=
  userChatMessage c.text c.msStore c.tStore :: adapterMsgs c

/-! ## Audit: client `postAudit`, store `addAuditLog`, `POST /audit` route -/

/-- `addAuditLog` from `stores/useStore.ts`: prepend. -/
def addAuditLog (st : StoreState) (log : AuditLog) : StoreState :=
  { st with auditLogs := log :: st.auditLogs }

/-- JavaScript falsiness of an optional string field (`undefined` or `''`). -/
def isFalsy : Option String → Bool
  | none => true
  | some s => s.isEmpty

/-- JavaScript `a || b` for an optional string field. -/
def jsOr (o : Option String) (d : String) : String :=
  match o with
  | some s => if s.isEmpty then d else s
  | none => d

/-- Request body of `POST /audit` as read field-by-field by the handler in
`app/api/audit/route.ts` (`body.id`, `body.timestamp`, …). -/
structure AuditPostBody where
  id : Option String := none
  timestamp : Option String := none
  action : Option String := none
  actor : Option String := none
  trainId : Option String := none
  recId : Option String := none
  reason : Option String := none
  details : Option AuditDetails := none
  outcome : Option String := none
deriving DecidableEq

/-- The body `postAudit` of `services/auditService.ts` actually sends: the
entry plus a client-generated id (`audit-$Date.now()-$rand`) and a
client-side ISO timestamp. -/
def postAuditBody (log : AuditLogBase) (nowMs : Nat) (rand : String)
    (now : String) : AuditPostBody :=
  { id := some ("audit-" ++ toString nowMs ++ "-" ++ rand)
    timestamp := some now
    action := some log.action
    actor := some log.actor
    trainId := log.trainId
    recId := log.recId
    reason := log.reason
    details := log.details
    outcome := log.outcome }

/-- Outcome of the `POST /audit` handler. -/
inductive AuditPostResult where
  | created (id : String)
  | validationError
deriving DecidableEq

/-- `POST` handler of `app/api/audit/route.ts`: validates `action`/`actor`,
builds the entry with `body.id || generated` and `body.timestamp || now`,
unshifts it onto the in-memory storage, and truncates the storage to its
first 1000 entries when it exceeds 1000. -/
def auditPost (body : AuditPostBody) (storage : List AuditLog) (nowMs : Nat)
    (rand : String) (now : String) : AuditPostResult × List AuditLog :=
  if isFalsy body.action || isFalsy body.actor then
    (AuditPostResult.validationError, storage)
  else
    let auditLog : AuditLog :=
      { id := jsOr body.id ("audit-" ++ toString nowMs ++ "-" ++ rand)
        timestamp := jsOr body.timestamp now
        action := body.action.getD ""
        actor := body.actor.getD ""
        trainId := body.trainId
        recId := body.recId
        reason := body.reason
        details := body.details
        outcome := some (jsOr body.outcome "success") }
    let storage1 := auditLog :: storage
    let storage2 := if storage1.length > 1000 then storage1.take 1000 else storage1
    (AuditPostResult.created auditLog.id, storage2)

/-! ## Fetch actions of the store -/

/-- `fetchTrains` from `stores/useStore.ts`; `result` is the outcome of the
awaited `apiGet('/trains')`. -/
def fetchTrains (st : StoreState) (result : Except Unit (List Train))
    (now : String) : ActionResult :=
  let s1 : StoreState := { st with loading := true, error := none }
  match result with
  | Except.ok data =>
    let lu : LastUpdated := { st.lastUpdated with trains := some now }
    let s2 : StoreState := { s1 with trains := data, loading := false, lastUpdated := lu }
    ⟨[s1, s2], none⟩
  | Except.error _ =>
    ⟨[s1, { s1 with error := some "Failed to fetch trains", loading := false }], none⟩

/-- `fetchRecommendations` from `stores/useStore.ts`. -/
def fetchRecommendations (st : StoreState)
    (result : Except Unit (List Recommendation)) (now : String) : ActionResult :=
  let s1 : StoreState := { st with loading := true, error := none }
  match result with
  | Except.ok data =>
    let lu : LastUpdated := { st.lastUpdated with recommendations := some now }
    let s2 : StoreState := { s1 with recommendations := data, loading := false, lastUpdated := lu }
    ⟨[s1, s2], none⟩
  | Except.error _ =>
    ⟨[s1, { s1 with error := some "Failed to fetch recommendations", loading := false }], none⟩

/-- `fetchPredictions` from `stores/useStore.ts`: filters the store's trains
by the optional id list and feeds them to the prediction adapter. -/
def fetchPredictions (st : StoreState) (trainIds : Option (List String))
    (adapter : List Train → Except Unit (List Prediction)) (now : String) :
    ActionResult :=
  let s1 : StoreState := { st with loading := true, error := none }
  let trains := match trainIds with
    | some ids => st.trains.filter (fun t => ids.contains t.id)
    | none => st.trains
  match adapter trains with
  | Except.ok predictions =>
    let lu : LastUpdated := { st.lastUpdated with predictions := some now }
    let s2 : StoreState := { s1 with predictions := predictions, loading := false, lastUpdated := lu }
    ⟨[s1, s2], none⟩
  | Except.error _ =>
    ⟨[s1, { s1 with error := some "Failed to fetch predictions", loading := false }], none⟩

/-- `fetchKpis` from `stores/useStore.ts`. -/
def fetchKpis (st : StoreState) (result : Except Unit (List KPI))
    (now : String) : ActionResult :=
  let s1 : StoreState := { st with loading := true, error := none }
  match result with
  | Except.ok data =>
    let lu : LastUpdated := { st.lastUpdated with kpis := some now }
    let s2 : StoreState := { s1 with kpis := data, loading := false, lastUpdated := lu }
    ⟨[s1, s2], none⟩
  | Except.error _ =>
    ⟨[s1, { s1 with error := some "Failed to fetch KPIs", loading := false }], none⟩

/-- `fetchAuditLogs` from `stores/useStore.ts`: note its success branch sets
only the collection and `loading` — no `lastUpdated` stamp. -/
def fetchAuditLogs (st : StoreState) (result : Except Unit (List AuditLog)) :
    ActionResult :=
  let s1 : StoreState := { st with loading := true, error := none }
  match result with
  | Except.ok auditLogs =>
    ⟨[s1, { s1 with auditLogs := auditLogs, loading := false }], none⟩
  | Except.error _ =>
    ⟨[s1, { s1 with error := some "Failed to fetch audit logs", loading := false }], none⟩

/-! ## Transport adapter header handling (`services/adapterBase.ts`) -/

/-- The caller-supplied `RequestInit`-shaped options of `apiFetch`, reduced
to the fields the header logic touches.  `headers = none` models an absent
`headers` property. -/
structure RequestOptions where
  method : Option String := none
  headers : Option (List (String × String)) := none
  body : Option String := none
deriving DecidableEq

/-- JavaScript object spread `{ ...a, ...b }` over string-keyed records:
keys of `a` in order with values overridden by `b`, then keys only in `b`. -/
def spreadPairs (a b : List (String × String)) : List (String × String) :=
  (a.map (fun kv =>
    match b.find? (fun kv2 => kv2.1 == kv.1) with
    | some kv2 => (kv.1, kv2.2)
    | none => kv))
  ++ b.filter (fun kv2 => !(a.any (fun kv => kv.1 == kv2.1)))

/-- The headers `apiFetch` actually sends: it builds
`{ headers: { 'Content-Type': 'application/json', ...options.headers }, ...options }`,
so the trailing spread of `options` replaces the merged headers object
whenever the caller supplied a `headers` property at all. -/
def apiFetchHeaders (options : RequestOptions) : List (String × String) :=
  let merged := spreadPairs [("Content-Type", "application/json")] (options.headers.getD [])
  match options.headers with
  | some h => h
  | none => merged

/-- Case-sensitive header lookup (JS object key access). -/
def lookupHeader (hs : List (String × String)) (k : String) : Option String :=
  (hs.find? (fun kv => kv.1 == k)).map (fun kv => kv.2)

/-! ## Concrete sample inputs used by counterexamples and witnesses -/

/-- A minimal well-formed audit entry (sample input). -/
def auditEntryA : AuditLog :=
  { id := "a", timestamp := "t", action := "x", actor := "y" }

/-- A second audit entry, distinct from `auditEntryA` (sample input). -/
def auditEntryB : AuditLog :=
  { id := "b", timestamp := "t", action := "x", actor := "y" }

/-- A server-side audit storage already holding 1000 entries, the oldest of
which is `auditEntryB` (sample input). -/
def auditBulkStorage : List AuditLog :=
  List.replicate 999 auditEntryA ++ [auditEntryB]

/-- A valid `POST /audit` body with no client id/timestamp (sample input). -/
def auditBodyMinimal : AuditPostBody :=
  { action := some "x", actor := some "y" }

/-- A valid `POST /audit` body carrying a client-generated id and timestamp,
as `postAudit` always sends (sample input). -/
def auditBodyClientStamped : AuditPostBody :=
  { id := some "client-id-1"
    timestamp := some "2024-01-01T00:00:00Z"
    action := some "Recommendation Accepted"
    actor := some "System User" }

/-- A sample audit log list as returned by the audit adapter. -/
def sampleFetchedLogs : List AuditLog := [auditEntryA]

/-- The entry the `POST /audit` handler stores for `auditBodyMinimal` at
clock 5 and random draw "r": all values evaluated. -/
def auditEntryNew : AuditLog :=
  { id := "audit-5-r", timestamp := "t", action := "x", actor := "y"
    outcome := some "success" }

/-- An empty chat session (sample input). -/
def sampleSession : ChatSession :=
  { sessionId := "session-001", messages := [], createdAt := "t0", lastActive := "t0" }

/-- A store holding one empty chat session (sample input). -/
def chatStore : StoreState := { chatSessions := [sampleSession] }

/-- A chat call whose transport succeeds (sample input). -/
def sampleChatCallOk : ChatCall :=
  { text := "hello", transportFails := false, msStore := 10, msRemote := 11
    randIdx := 0, tStore := "t10", tRemote := "t11" }

/-- A chat call whose transport fails (sample input). -/
def sampleChatCallFail : ChatCall :=
  { text := "second message", transportFails := true, msStore := 20, msRemote := 21
    randIdx := 0, tStore := "t20", tRemote := "t21" }

/-! ## General lemmas about keyed list updates -/

/-- `find?` after a keyed in-place update: the first match is updated, and
is still found first, provided the update preserves the key predicate. -/
theorem find?_map_update {α : Type} (p : α → Bool) (f : α → α)
    (hp : ∀ a, p a = true → p (f a) = true) :
    ∀ (l : List α) (r : α), l.find? p = some r →
      (l.map (fun a => if p a then f a else a)).find? p = some (f r) := by
  intro l
  induction l with
  | nil => intro r h; simp [List.find?] at h
  | cons a t ih =>
    intro r h
    by_cases hpa : p a = true
    · rw [List.find?_cons_of_pos _ hpa] at h
      cases h
      simp only [List.map_cons, hpa, if_true]
      exact List.find?_cons_of_pos _ (hp a hpa)
    · have hpa' : ¬ p a := hpa
      rw [List.find?_cons_of_neg _ hpa'] at h
      have : (if p a then f a else a) = a := by simp [hpa']
      simp only [List.map_cons, this]
      rw [List.find?_cons_of_neg _ hpa']
      exact ih r h

/-- A keyed in-place update leaves `find?` for any disjoint predicate `q`
untouched, provided `q`-elements are not `p`-elements and the replacement
never satisfies `q`. -/
theorem find?_map_update_disjoint {α : Type} (p q : α → Bool) (f : α → α)
    (h1 : ∀ a, q a = true → p a = false)
    (h2 : ∀ a, q (f a) = false) :
    ∀ l : List α,
      (l.map (fun a => if p a then f a else a)).find? q = l.find? q := by
  intro l
  induction l with
  | nil => simp
  | cons a t ih =>
    by_cases hpa : p a = true
    · have hqa : q a = false := by
        by_cases hq : q a = true
        · have := h1 a hq
          rw [hpa] at this
          simp at this
        · simpa using hq
      have hqfa : q (f a) = false := h2 a
      simp only [List.map_cons, hpa, if_true]
      rw [List.find?_cons_of_neg _ (by simp [hqfa]),
          List.find?_cons_of_neg _ (by simp [hqa])]
      exact ih
    · have hpa' : ¬ p a := hpa
      have : (if p a then f a else a) = a := by simp [hpa']
      simp only [List.map_cons, this]
      by_cases hqa : q a = true
      · rw [List.find?_cons_of_pos _ hqa, List.find?_cons_of_pos _ hqa]
      · rw [List.find?_cons_of_neg _ hqa, List.find?_cons_of_neg _ hqa]
        exact ih

/-- The keyed recommendation update of the decision actions composed with
the key predicate is the key predicate again (the update preserves ids). -/
theorem find?_comp_update (F : Recommendation → Recommendation)
    (hF : ∀ r, (F r).id = r.id) (recs : List Recommendation) (recId : String)
    (rec : Recommendation)
    (h : recs.find? (fun r => r.id == recId) = some rec) :
    List.find? ((fun r => r.id == recId) ∘ fun r => if r.id = recId then F r else r)
      recs = some rec := by
  have hcomp : ((fun r => r.id == recId) ∘ fun r => if r.id = recId then F r else r)
      = (fun (r : Recommendation) => r.id == recId) := by
    funext a
    by_cases hc : a.id = recId
    · simp [Function.comp, hc, hF]
    · simp [Function.comp, hc]
  rw [hcomp, h]

/-- The id found by a keyed `find?` satisfies the key equation. -/
theorem find?_id_eq {recs : List Recommendation} {recId : String}
    {rec : Recommendation}
    (h : recs.find? (fun r => r.id == recId) = some rec) : rec.id = recId := by
  have h1 := List.find?_some h
  simpa using h1

/-- Appending one element that fails the predicate does not change `find?`. -/
theorem find?_append_singleton_of_neg {α : Type} (q : α → Bool) (x : α)
    (hx : q x = false) : ∀ l : List α, (l ++ [x]).find? q = l.find? q := by
  intro l
  induction l with
  | nil => simp [List.find?, hx]
  | cons a t ih =>
    by_cases hqa : q a = true
    · rw [List.cons_append, List.find?_cons_of_pos _ hqa, List.find?_cons_of_pos _ hqa]
    · rw [List.cons_append, List.find?_cons_of_neg _ hqa, List.find?_cons_of_neg _ hqa]
      exact ih

/-! ## Claims about the recommendation decision actions -/

/-- C1: for each decision action (`acceptRecommendation`,
`overrideRecommendation`, `rejectRecommendation`) on an existing pending
recommendation, if the awaited `postAudit` call fails then the action
rethrows, the target status is unchanged, the store error is non-null and
loading is false — the audit write gates the status transition. -/
theorem claim1_audit_failure_is_a_gate
    (st : StoreState) (recId altId reason : String) (nowMs : Nat) (now : String)
    (rec : Recommendation) (alt : Alternative)
    (hrec : st.recommendations.find? (fun r => r.id == recId) = some rec)
    (_hpend : rec.status = some RecStatus.pending)
    (halt : rec.alternatives.find? (fun a => a.id == altId) = some alt) :
    auditFailureGate st recId (acceptRecommendation st recId false nowMs now) ∧
    auditFailureGate st recId (overrideRecommendation st recId altId false nowMs now) ∧
    auditFailureGate st recId (rejectRecommendation st recId reason false nowMs now) := by
  refine ⟨?_, ?_, ?_⟩
  · simp [acceptRecommendation, hrec, auditFailureGate, ActionResult.final, statusOf]
  · simp [overrideRecommendation, hrec, halt, auditFailureGate, ActionResult.final, statusOf]
  · simp [rejectRecommendation, hrec, auditFailureGate, ActionResult.final, statusOf]

/-- Witness for C1 on the seeded mock store (`rec-001`, `alt-001`). -/
theorem claim1_audit_failure_is_a_gate_witness :
    auditFailureGate mockStore "rec-001" (acceptRecommendation mockStore "rec-001" false 7 "t1") ∧
    auditFailureGate mockStore "rec-001" (overrideRecommendation mockStore "rec-001" "alt-001" false 7 "t1") ∧
    auditFailureGate mockStore "rec-001" (rejectRecommendation mockStore "rec-001" "Safety concern" false 7 "t1") :=
  claim1_audit_failure_is_a_gate mockStore "rec-001" "alt-001" "Safety concern" 7 "t1"
    mockRec1 mockAlt1 (by decide) (by decide) (by decide)

/-- C2: on an existing pending recommendation, a successful
`acceptRecommendation` resolves without error, sets the status to
`accepted`, leaves the action text unchanged, puts an audit entry
referencing the id at the head of the audit log, and commits status and
audit entry in the same single state update: no state of the trace (nor the
initial state) shows the accepted status without the audit head entry. -/
theorem claim2_accept_commits_status_with_audit_atomically
    (st : StoreState) (recId : String) (nowMs : Nat) (now : String)
    (rec : Recommendation)
    (hrec : st.recommendations.find? (fun r => r.id == recId) = some rec)
    (hpend : rec.status = some RecStatus.pending) :
    (acceptRecommendation st recId true nowMs now).err = none ∧
    statusOf ((acceptRecommendation st recId true nowMs now).final st) recId
      = some (some RecStatus.accepted) ∧
    actionOf ((acceptRecommendation st recId true nowMs now).final st) recId
      = some rec.action ∧
    auditHeadRecId ((acceptRecommendation st recId true nowMs now).final st)
      = some (some recId) ∧
    (∀ s ∈ st :: (acceptRecommendation st recId true nowMs now).trace,
      statusOf s recId = some (some RecStatus.accepted) →
        auditHeadRecId s = some (some recId)) := by
  have hid := find?_id_eq hrec
  refine ⟨?_, ?_, ?_, ?_, ?_⟩
  · simp [acceptRecommendation, hrec]
  · simp only [acceptRecommendation, hrec, ActionResult.final]
    simp [statusOf]
    exact ⟨rec, find?_comp_update (fun r => { r with status := some RecStatus.accepted })
      (fun r => rfl) st.recommendations recId rec hrec, by simp [hid]⟩
  · simp only [acceptRecommendation, hrec, ActionResult.final]
    simp [actionOf]
    exact ⟨rec, find?_comp_update (fun r => { r with status := some RecStatus.accepted })
      (fun r => rfl) st.recommendations recId rec hrec, by simp [hid]⟩
  · simp [acceptRecommendation, hrec, ActionResult.final, auditHeadRecId,
      stampStoreAudit, createAuditLog]
  · intro s hs
    simp [acceptRecommendation, hrec] at hs
    rcases hs with rfl | rfl | rfl
    · intro hcontra
      simp [statusOf, hrec, hpend] at hcontra
    · intro hcontra
      simp [statusOf, hrec, hpend] at hcontra
    · intro _
      simp [auditHeadRecId, stampStoreAudit, createAuditLog]

/-- Witness for C2: accepting `rec-001` on the seeded mock store. -/
theorem claim2_accept_commits_status_with_audit_atomically_witness :
    (acceptRecommendation mockStore "rec-001" true 7 "t1").err = none ∧
    statusOf ((acceptRecommendation mockStore "rec-001" true 7 "t1").final mockStore) "rec-001"
      = some (some RecStatus.accepted) ∧
    actionOf ((acceptRecommendation mockStore "rec-001" true 7 "t1").final mockStore) "rec-001"
      = some "Implement dynamic rerouting for IC-2847" ∧
    auditHeadRecId ((acceptRecommendation mockStore "rec-001" true 7 "t1").final mockStore)
      = some (some "rec-001") ∧
    (∀ s ∈ mockStore :: (acceptRecommendation mockStore "rec-001" true 7 "t1").trace,
      statusOf s "rec-001" = some (some RecStatus.accepted) →
        auditHeadRecId s = some (some "rec-001")) :=
  claim2_accept_commits_status_with_audit_atomically mockStore "rec-001" 7 "t1"
    mockRec1 (by decide) (by decide)

/-- C3: on an existing recommendation with an existing alternative, a
successful `overrideRecommendation` resolves without error, sets status
`accepted`, replaces the action by the alternative's action, and the audit
head entry records both the original and the selected action. -/
theorem claim3_override_replaces_action_and_logs_both
    (st : StoreState) (recId altId : String) (nowMs : Nat) (now : String)
    (rec : Recommendation) (alt : Alternative)
    (hrec : st.recommendations.find? (fun r => r.id == recId) = some rec)
    (halt : rec.alternatives.find? (fun a => a.id == altId) = some alt) :
    (overrideRecommendation st recId altId true nowMs now).err = none ∧
    statusOf ((overrideRecommendation st recId altId true nowMs now).final st) recId
      = some (some RecStatus.accepted) ∧
    actionOf ((overrideRecommendation st recId altId true nowMs now).final st) recId
      = some alt.action ∧
    (∃ head rest,
      ((overrideRecommendation st recId altId true nowMs now).final st).auditLogs
        = head :: rest ∧
      head.recId = some recId ∧
      head.details = some { recommendationId := some recId
                            alternativeId := some altId
                            originalAction := some rec.action
                            selectedAction := some alt.action }) := by
  have hid := find?_id_eq hrec
  refine ⟨?_, ?_, ?_, ?_⟩
  · simp [overrideRecommendation, hrec, halt]
  · simp only [overrideRecommendation, hrec, halt, ActionResult.final]
    simp [statusOf]
    exact ⟨rec, find?_comp_update
      (fun r => { r with status := some RecStatus.accepted, action := alt.action })
      (fun r => rfl) st.recommendations recId rec hrec, by simp [hid]⟩
  · simp only [overrideRecommendation, hrec, halt, ActionResult.final]
    simp [actionOf]
    exact ⟨rec, find?_comp_update
      (fun r => { r with status := some RecStatus.accepted, action := alt.action })
      (fun r => rfl) st.recommendations recId rec hrec, by simp [hid]⟩
  · refine ⟨stampStoreAudit (createAuditLog "Recommendation Overridden" "System User"
        (some { recommendationId := some recId
                alternativeId := some altId
                originalAction := some rec.action
                selectedAction := some alt.action })
        rec.trainId (some recId)
        (some ("User selected alternative: " ++ alt.action))) nowMs now,
      st.auditLogs, ?_, ?_, ?_⟩
    · simp [overrideRecommendation, hrec, halt, ActionResult.final]
    · simp [stampStoreAudit, createAuditLog]
    · simp [stampStoreAudit, createAuditLog]

/-- Witness for C3, the concrete scenario of the spec: overriding `rec-001`
with `alt-001` yields status `accepted` and action "Reroute via Oxford". -/
theorem claim3_override_replaces_action_and_logs_both_witness :
    (overrideRecommendation mockStore "rec-001" "alt-001" true 7 "t1").err = none ∧
    statusOf ((overrideRecommendation mockStore "rec-001" "alt-001" true 7 "t1").final mockStore) "rec-001"
      = some (some RecStatus.accepted) ∧
    actionOf ((overrideRecommendation mockStore "rec-001" "alt-001" true 7 "t1").final mockStore) "rec-001"
      = some "Reroute via Oxford" ∧
    (∃ head rest,
      ((overrideRecommendation mockStore "rec-001" "alt-001" true 7 "t1").final mockStore).auditLogs
        = head :: rest ∧
      head.recId = some "rec-001" ∧
      head.details = some { recommendationId := some "rec-001"
                            alternativeId := some "alt-001"
                            originalAction := some "Implement dynamic rerouting for IC-2847"
                            selectedAction := some "Reroute via Oxford" }) :=
  claim3_override_replaces_action_and_logs_both mockStore "rec-001" "alt-001" 7 "t1"
    mockRec1 mockAlt1 (by decide) (by decide)

/-! ## Claims about the audit POST surface -/

/-- C5 counterexample: the claim says the server assigns id and timestamp of
the stored entry.  In the code, a client-supplied id/timestamp is kept: at
this concrete request the stored head entry carries the client id
`client-id-1` and the client timestamp, not the server-generated
`audit-999-zzz` / `SERVER-TIME`; and `postAudit` itself always sends a
client-generated id and timestamp rather than the claimed
AuditLog-minus-id/timestamp body. -/
theorem claim5_counterexample :
    ((auditPost auditBodyClientStamped [] 999 "zzz" "SERVER-TIME").2.head?.map
        (fun l => l.id)) = some "client-id-1" ∧
    ((auditPost auditBodyClientStamped [] 999 "zzz" "SERVER-TIME").2.head?.map
        (fun l => l.timestamp)) = some "2024-01-01T00:00:00Z" ∧
    (auditPost auditBodyClientStamped [] 999 "zzz" "SERVER-TIME").1
      = AuditPostResult.created "client-id-1" ∧
    (postAuditBody (createAuditLog "Recommendation Accepted" "System User"
        none none none none) 5 "r" "T").id = some "audit-5-r" ∧
    (postAuditBody (createAuditLog "Recommendation Accepted" "System User"
        none none none none) 5 "r" "T").timestamp = some "T" := by
  refine ⟨?_, ?_, ?_, ?_, ?_⟩ <;> decide

/-- C5 (amended): `POST /audit` stores an entry whose id and timestamp are
`body.id || generated` and `body.timestamp || now` — server-generated only
when the client omits them (or sends an empty string) — and answers
`{ id }` with the stored id; the client `postAudit` always sends a
client-generated id and timestamp, which the server therefore keeps. -/
theorem claim5_server_assigns_id_only_as_fallback
    (body : AuditPostBody) (storage : List AuditLog) (nowMs : Nat)
    (rand now : String)
    (hact : isFalsy body.action = false) (hactor : isFalsy body.actor = false) :
    ((auditPost body storage nowMs rand now).2.head?.map (fun l => l.id))
      = some (jsOr body.id ("audit-" ++ toString nowMs ++ "-" ++ rand)) ∧
    ((auditPost body storage nowMs rand now).2.head?.map (fun l => l.timestamp))
      = some (jsOr body.timestamp now) ∧
    (auditPost body storage nowMs rand now).1
      = AuditPostResult.created (jsOr body.id ("audit-" ++ toString nowMs ++ "-" ++ rand)) ∧
    (∀ log cMs cR cT, (postAuditBody log cMs cR cT).id
        = some ("audit-" ++ toString cMs ++ "-" ++ cR) ∧
      (postAuditBody log cMs cR cT).timestamp = some cT) ∧
    (∀ cid, body.id = some cid → cid.isEmpty = false →
      jsOr body.id ("audit-" ++ toString nowMs ++ "-" ++ rand) = cid) ∧
    (body.id = none →
      jsOr body.id ("audit-" ++ toString nowMs ++ "-" ++ rand)
        = "audit-" ++ toString nowMs ++ "-" ++ rand) := by
  refine ⟨?_, ?_, ?_, ?_, ?_, ?_⟩
  · simp only [auditPost, hact, hactor, Bool.or_self, Bool.false_or]
    rw [if_neg (by simp)]
    split <;> rfl
  · simp only [auditPost, hact, hactor]
    rw [if_neg (by simp)]
    split <;> rfl
  · simp only [auditPost, hact, hactor]
    rw [if_neg (by simp)]
  · intro log cMs cR cT
    exact ⟨rfl, rfl⟩
  · intro cid hcid hne
    simp [jsOr, hcid, hne]
  · intro hnone
    simp [jsOr, hnone]

/-- Witness for C5 (amended): a round trip of a client-stamped body through
the handler. -/
theorem claim5_server_assigns_id_only_as_fallback_witness :
    isFalsy auditBodyClientStamped.action = false ∧
    isFalsy auditBodyClientStamped.actor = false ∧
    (((auditPost auditBodyClientStamped auditBulkStorage 999 "zzz" "SERVER-TIME").2.head?.map
        (fun l => l.id))
      = some (jsOr auditBodyClientStamped.id ("audit-" ++ toString 999 ++ "-" ++ "zzz")) ∧
    ((auditPost auditBodyClientStamped auditBulkStorage 999 "zzz" "SERVER-TIME").2.head?.map
        (fun l => l.timestamp))
      = some (jsOr auditBodyClientStamped.timestamp "SERVER-TIME") ∧
    (auditPost auditBodyClientStamped auditBulkStorage 999 "zzz" "SERVER-TIME").1
      = AuditPostResult.created
          (jsOr auditBodyClientStamped.id ("audit-" ++ toString 999 ++ "-" ++ "zzz")) ∧
    (∀ log cMs cR cT, (postAuditBody log cMs cR cT).id
        = some ("audit-" ++ toString cMs ++ "-" ++ cR) ∧
      (postAuditBody log cMs cR cT).timestamp = some cT) ∧
    (∀ cid, auditBodyClientStamped.id = some cid → cid.isEmpty = false →
      jsOr auditBodyClientStamped.id ("audit-" ++ toString 999 ++ "-" ++ "zzz") = cid) ∧
    (auditBodyClientStamped.id = none →
      jsOr auditBodyClientStamped.id ("audit-" ++ toString 999 ++ "-" ++ "zzz")
        = "audit-" ++ toString 999 ++ "-" ++ "zzz")) :=
  ⟨by decide, by decide,
    claim5_server_assigns_id_only_as_fallback auditBodyClientStamped auditBulkStorage
      999 "zzz" "SERVER-TIME" (by decide) (by decide)⟩

/-- C8 counterexample: the claim says no stored entry is ever removed
through normal flow.  With the storage already at 1000 entries, one more
`POST /audit` drops the oldest entry (`auditEntryB`). -/
theorem claim8_counterexample :
    auditEntryB ∈ auditBulkStorage ∧
    auditEntryB ∉ (auditPost auditBodyMinimal auditBulkStorage 5 "r" "t").2 := by
  constructor
  · exact List.mem_append_right _ (List.mem_singleton_self _)
  · intro hmem
    have hblen : auditBulkStorage.length = 1000 := by
      rw [show auditBulkStorage = List.replicate 999 auditEntryA ++ [auditEntryB] from rfl,
        List.length_append, List.length_replicate]
      rfl
    have hpost : (auditPost auditBodyMinimal auditBulkStorage 5 "r" "t").2
        = auditEntryNew :: List.replicate 999 auditEntryA := by
      simp only [auditPost]
      rw [if_neg (by decide)]
      rw [if_pos (by rw [List.length_cons, hblen]; omega)]
      show List.take 1000 (auditEntryNew :: auditBulkStorage)
        = auditEntryNew :: List.replicate 999 auditEntryA
      rw [show (auditEntryNew :: auditBulkStorage
          = (auditEntryNew :: List.replicate 999 auditEntryA) ++ [auditEntryB]) from rfl]
      exact List.take_left' (by rw [List.length_cons, List.length_replicate])
    rw [hpost] at hmem
    rcases List.mem_cons.mp hmem with h | h
    · exact absurd h (by decide)
    · exact absurd (List.eq_of_mem_replicate h) (by decide)

/-- C8 (amended): the store's `addAuditLog` always prepends, never removing
or editing; the `POST /audit` handler prepends and keeps every previously
stored entry unmodified only while the stored count is below 1000 — at 1000
or more it truncates to the newest 1000 entries. -/
theorem claim8_append_only_below_cap :
    (∀ st log, (addAuditLog st log).auditLogs = log :: st.auditLogs) ∧
    (∀ body storage nowMs rand now, storage.length < 1000 →
      isFalsy body.action = false → isFalsy body.actor = false →
      ∃ entry, (auditPost body storage nowMs rand now).2 = entry :: storage) := by
  constructor
  · intro st log; rfl
  · intro body storage nowMs rand now hlen hact hactor
    refine ⟨{ id := jsOr body.id ("audit-" ++ toString nowMs ++ "-" ++ rand)
              timestamp := jsOr body.timestamp now
              action := body.action.getD ""
              actor := body.actor.getD ""
              trainId := body.trainId
              recId := body.recId
              reason := body.reason
              details := body.details
              outcome := some (jsOr body.outcome "success") }, ?_⟩
    simp only [auditPost, hact, hactor]
    rw [if_neg (by simp)]
    rw [if_neg (by simp; omega)]

/-- Witness for C8 (amended): posting to a one-entry storage preserves it. -/
theorem claim8_append_only_below_cap_witness :
    ([auditEntryA].length < 1000 ∧ isFalsy auditBodyMinimal.action = false ∧
      isFalsy auditBodyMinimal.actor = false) ∧
    ((∀ st log, (addAuditLog st log).auditLogs = log :: st.auditLogs) ∧
     (∀ body storage nowMs rand now, storage.length < 1000 →
        isFalsy body.action = false → isFalsy body.actor = false →
        ∃ entry, (auditPost body storage nowMs rand now).2 = entry :: storage)) :=
  ⟨⟨by decide, by decide, by decide⟩, claim8_append_only_below_cap⟩

/-! ## Claims about the fetch actions -/

/-- C6 counterexample: the claim says every fetch action stamps
`lastUpdated` for its collection on success.  A successful `fetchAuditLogs`
replaces the collection but leaves the whole `lastUpdated` record exactly
as before — no stamp exists for audit logs (the record does not even have
such a field), and `fetchAuditLogs` takes no timestamp at all. -/
theorem claim6_counterexample :
    ((fetchAuditLogs {} (Except.ok sampleFetchedLogs)).final {}).auditLogs
      = sampleFetchedLogs ∧
    ((fetchAuditLogs {} (Except.ok sampleFetchedLogs)).final {}).lastUpdated
      = ({} : LastUpdated) ∧
    ((fetchAuditLogs {} (Except.ok sampleFetchedLogs)).final {}).lastUpdated
      = ({} : StoreState).lastUpdated := by
  refine ⟨?_, ?_, ?_⟩ <;> rfl

/-- C6 (amended): every fetch action sets `loading := true` and clears
`error` in its first state update and ends with `loading = false`; on
success it replaces its collection with the adapter result and — for
trains, recommendations, predictions and kpis — stamps
`lastUpdated[collection]`; on failure it sets the fixed user-facing message
and leaves collection and `lastUpdated` unchanged.  `fetchAuditLogs`
follows the same loading/error protocol but never stamps `lastUpdated`. -/
theorem claim6_fetch_protocol :
    (∀ (st : StoreState) data now,
      fetchTrains st (Except.ok data) now = ⟨[{ st with loading := true, error := none }, { st with trains := data, loading := false, error := none, lastUpdated := { st.lastUpdated with trains := some now } }], none⟩ ∧
      fetchTrains st (Except.error ()) now = ⟨[{ st with loading := true, error := none }, { st with loading := false, error := some "Failed to fetch trains" }], none⟩) ∧
    (∀ (st : StoreState) data now,
      fetchRecommendations st (Except.ok data) now = ⟨[{ st with loading := true, error := none }, { st with recommendations := data, loading := false, error := none, lastUpdated := { st.lastUpdated with recommendations := some now } }], none⟩ ∧
      fetchRecommendations st (Except.error ()) now = ⟨[{ st with loading := true, error := none }, { st with loading := false, error := some "Failed to fetch recommendations" }], none⟩) ∧
    (∀ (st : StoreState) trainIds data now,
      fetchPredictions st trainIds (fun _ => Except.ok data) now = ⟨[{ st with loading := true, error := none }, { st with predictions := data, loading := false, error := none, lastUpdated := { st.lastUpdated with predictions := some now } }], none⟩ ∧
      fetchPredictions st trainIds (fun _ => Except.error ()) now = ⟨[{ st with loading := true, error := none }, { st with loading := false, error := some "Failed to fetch predictions" }], none⟩) ∧
    (∀ (st : StoreState) data now,
      fetchKpis st (Except.ok data) now = ⟨[{ st with loading := true, error := none }, { st with kpis := data, loading := false, error := none, lastUpdated := { st.lastUpdated with kpis := some now } }], none⟩ ∧
      fetchKpis st (Except.error ()) now = ⟨[{ st with loading := true, error := none }, { st with loading := false, error := some "Failed to fetch KPIs" }], none⟩) ∧
    (∀ (st : StoreState) data,
      fetchAuditLogs st (Except.ok data) = ⟨[{ st with loading := true, error := none }, { st with auditLogs := data, loading := false, error := none }], none⟩ ∧
      fetchAuditLogs st (Except.error ()) = ⟨[{ st with loading := true, error := none }, { st with loading := false, error := some "Failed to fetch audit logs" }], none⟩) := by
  refine ⟨?_, ?_, ?_, ?_, ?_⟩
  · intro st data now; exact ⟨rfl, rfl⟩
  · intro st data now; exact ⟨rfl, rfl⟩
  · intro st trainIds data now
    constructor
    · cases trainIds <;> rfl
    · cases trainIds <;> rfl
  · intro st data now; exact ⟨rfl, rfl⟩
  · intro st data; exact ⟨rfl, rfl⟩

/-! ## Claim about the transport adapter header merge -/

/-- C9 counterexample: the claim says the default
`Content-Type: application/json` survives whenever the caller does not
override that specific key.  With caller headers `X-Custom: 1` (no
Content-Type), the request goes out without any Content-Type header. -/
theorem claim9_counterexample :
    lookupHeader (apiFetchHeaders { headers := some [("X-Custom", "1")] })
      "Content-Type" = none ∧
    lookupHeader (apiFetchHeaders { headers := some [("X-Custom", "1")] })
      "X-Custom" = some "1" := by
  constructor <;> decide

/-- C9 (amended): the per-key merge exists only in the intermediate object;
the trailing spread of the caller options replaces it, so a caller-supplied
headers object is sent as-is (the default Content-Type is dropped unless
the caller includes it), and the default Content-Type header is sent
exactly when the caller supplies no headers object. -/
theorem claim9_caller_headers_replace_defaults (options : RequestOptions) :
    (options.headers = none →
      apiFetchHeaders options = [("Content-Type", "application/json")]) ∧
    (∀ h, options.headers = some h → apiFetchHeaders options = h) := by
  constructor
  · intro hn
    simp [apiFetchHeaders, hn, spreadPairs]
  · intro h hh
    simp [apiFetchHeaders, hh]

/-- Witness for C9 (amended): a caller headers object without Content-Type
is sent unchanged. -/
theorem claim9_caller_headers_replace_defaults_witness :
    ((({ headers := some [("X-Custom", "1")] } : RequestOptions).headers
        = some [("X-Custom", "1")]) ∧
      apiFetchHeaders { headers := some [("X-Custom", "1")] } = [("X-Custom", "1")]) ∧
    ((({} : RequestOptions).headers = (none : Option (List (String × String)))) ∧
      apiFetchHeaders {} = [("Content-Type", "application/json")]) :=
  ⟨⟨rfl, (claim9_caller_headers_replace_defaults _).2 _ rfl⟩,
   ⟨rfl, (claim9_caller_headers_replace_defaults _).1 rfl⟩⟩

/-! ## Lemmas about the chat pipeline -/

/-- The chat Domain Adapter resolves with `adapterMsgs` for every call. -/
theorem chatAdapterOutcome_eq (c : ChatCall) :
    chatAdapterOutcome c = Except.ok (adapterMsgs c) := by
  cases h : c.transportFails <;>
    simp [chatAdapterOutcome, chatTransport, chatbotAdapterSendE, adapterMsgs, h]

/-- `generateAIResponse` always returns exactly one assistant message. -/
theorem generateAIResponse_singleton (msg : String) (nowMs randIdx : Nat)
    (now : String) :
    ∃ m, generateAIResponse msg nowMs randIdx now = [m] ∧
      m.role = ChatRole.assistant := by
  simp only [generateAIResponse]
  repeat' split
  all_goals exact ⟨_, rfl, rfl⟩

/-- The adapter's message list for one call is one assistant message. -/
theorem adapterMsgs_singleton (c : ChatCall) :
    ∃ m, adapterMsgs c = [m] ∧ m.role = ChatRole.assistant := by
  unfold adapterMsgs
  split
  · exact ⟨_, rfl, rfl⟩
  · exact generateAIResponse_singleton c.text c.msRemote c.randIdx c.tRemote

/-- `find?` over a list with the first `p`-match missing skips the prefix. -/
theorem find?_append_none {α : Type} (p : α → Bool) :
    ∀ {l : List α}, l.find? p = none → ∀ l2 : List α,
      (l ++ l2).find? p = l2.find? p := by
  intro l
  induction l with
  | nil => intro _ l2; rfl
  | cons a t ih =>
    intro h l2
    by_cases hpa : p a = true
    · rw [List.find?_cons_of_pos _ hpa] at h
      cases h
    · rw [List.find?_cons_of_neg _ hpa] at h
      rw [List.cons_append, List.find?_cons_of_neg _ hpa]
      exact ih h l2

/-- A keyed session update (replace or edit the sessions whose id is `sid`)
does not change `find?` for a different session id, provided the update
keeps the key. -/
theorem find?_sessions_update_ne (sid sid' : String) (hne : sid' ≠ sid)
    (u : ChatSession → ChatSession)
    (hu : ∀ s, s.sessionId = sid → (u s).sessionId = sid) :
    ∀ l : List ChatSession,
      (l.map (fun s => if s.sessionId == sid then u s else s)).find?
          (fun s => s.sessionId == sid')
        = l.find? (fun s => s.sessionId == sid') := by
  intro l
  induction l with
  | nil => rfl
  | cons a t ih =>
    simp only [List.map_cons, List.find?_cons]
    by_cases ha : a.sessionId = sid
    · have hpa : (a.sessionId == sid) = true := by simp [ha]
      have hq1 : ((u a).sessionId == sid') = false := by
        rw [hu a ha]
        exact beq_eq_false_iff_ne.mpr (Ne.symm hne)
      have hq2 : (a.sessionId == sid') = false := by
        rw [ha]
        exact beq_eq_false_iff_ne.mpr (Ne.symm hne)
      rw [if_pos hpa]
      simp only [hq1, hq2]
      exact ih
    · have hpa : ¬ ((a.sessionId == sid) = true) := by simp [ha]
      rw [if_neg hpa]
      by_cases hq : (a.sessionId == sid') = true
      · simp only [hq]
      · have hq' : (a.sessionId == sid') = false := by simpa using hq
        simp only [hq']
        exact ih

/-- One complete chat call on a present session appends exactly its call
block (user message then assistant responses) to that session. -/
theorem chat_call_appends (st : StoreState) (sid : String) (c : ChatCall)
    (s : ChatSession) (h : sessionFind st sid = some s) :
    ∃ s', sessionFind (chatCallFinal sid st c) sid = some s' ∧
      s'.messages = s.messages ++ callBlock c := by
  have hfind : st.chatSessions.find? (fun x => x.sessionId == sid) = some s := h
  have hps := List.find?_some hfind
  have hany : st.chatSessions.any (fun x => x.sessionId == sid) = true :=
    List.any_eq_true.mpr ⟨s, List.mem_of_find?_eq_some hfind, hps⟩
  have hsid : s.sessionId = sid := by simpa using hps
  simp only [chatCallFinal, chatPipeline, chatAdapterOutcome_eq,
    storeSendChatMessage, hfind, hany, if_true, ActionResult.final]
  refine ⟨{ s with
      messages := (s.messages ++ [userChatMessage c.text c.msStore c.tStore])
        ++ adapterMsgs c
      lastActive := c.tStore }, ?_, ?_⟩
  · have h1 := find?_map_update (fun (x : ChatSession) => x.sessionId == sid)
      (fun _ => { s with
        messages := s.messages ++ [userChatMessage c.text c.msStore c.tStore]
        lastActive := c.tStore })
      (fun a _ => hps) st.chatSessions s hfind
    exact find?_map_update (fun (x : ChatSession) => x.sessionId == sid)
      (fun _ => { s with
        messages := (s.messages ++ [userChatMessage c.text c.msStore c.tStore])
          ++ adapterMsgs c
        lastActive := c.tStore })
      (fun a _ => hps) _ _ h1
  · show ((s.messages ++ [userChatMessage c.text c.msStore c.tStore]) ++ adapterMsgs c)
      = s.messages ++ callBlock c
    rw [List.append_assoc]
    rfl

/-- No state committed by a chat call changes the message list of any other
session. -/
theorem chat_other_sessions_preserved (st : StoreState) (sid : String)
    (c : ChatCall) (sid' : String) (hne : sid' ≠ sid) :
    ∀ s2 ∈ (chatPipeline st sid c).trace,
      sessionFind s2 sid' = sessionFind st sid' := by
  intro s2 hs2
  by_cases hany : st.chatSessions.any (fun x => x.sessionId == sid) = true
  · obtain ⟨s0, hs0⟩ : ∃ s0,
        st.chatSessions.find? (fun x => x.sessionId == sid) = some s0 := by
      obtain ⟨x, hx, hpx⟩ := List.any_eq_true.mp hany
      exact Option.isSome_iff_exists.mp (List.find?_isSome.mpr ⟨x, hx, hpx⟩)
    have hs0id : s0.sessionId = sid := by simpa using List.find?_some hs0
    simp only [chatPipeline, chatAdapterOutcome_eq, storeSendChatMessage,
      hs0, hany, if_true, List.mem_cons, List.not_mem_nil, or_false] at hs2
    rcases hs2 with rfl | rfl
    · exact find?_sessions_update_ne sid sid' hne
        (fun _ => { s0 with
          messages := s0.messages ++ [userChatMessage c.text c.msStore c.tStore]
          lastActive := c.tStore })
        (fun x _ => hs0id) st.chatSessions
    · exact (find?_sessions_update_ne sid sid' hne
        (fun _ => { s0 with
          messages := (s0.messages ++ [userChatMessage c.text c.msStore c.tStore])
            ++ adapterMsgs c
          lastActive := c.tStore })
        (fun x _ => hs0id) _).trans
        (find?_sessions_update_ne sid sid' hne
          (fun _ => { s0 with
            messages := s0.messages ++ [userChatMessage c.text c.msStore c.tStore]
            lastActive := c.tStore })
          (fun x _ => hs0id) st.chatSessions)
  · have hanyF : st.chatSessions.any (fun x => x.sessionId == sid) = false := by
      simpa using hany
    have hnone : st.chatSessions.find? (fun x => x.sessionId == sid) = none := by
      rw [List.find?_eq_none]
      intro x hx hpx
      exact hany (List.any_eq_true.mpr ⟨x, hx, hpx⟩)
    have hqfall : ((sid : String) == sid') = false := by
      simp; exact fun h => hne h.symm
    simp only [chatPipeline, chatAdapterOutcome_eq, storeSendChatMessage,
      hnone, hanyF, if_false, Bool.false_eq_true, List.mem_cons,
      List.not_mem_nil, or_false] at hs2
    rcases hs2 with rfl | rfl
    · exact find?_append_singleton_of_neg (fun s => s.sessionId == sid')
        { sessionId := sid
          messages := [] ++ [userChatMessage c.text c.msStore c.tStore]
          createdAt := c.tStore, lastActive := c.tStore } hqfall st.chatSessions
    · exact (find?_sessions_update_ne sid sid' hne
        (fun _ => { sessionId := sid
                    messages := ([] ++ [userChatMessage c.text c.msStore c.tStore])
                      ++ adapterMsgs c
                    createdAt := c.tStore, lastActive := c.tStore })
        (fun x _ => rfl) _).trans
        (find?_append_singleton_of_neg (fun s => s.sessionId == sid')
          { sessionId := sid
            messages := [] ++ [userChatMessage c.text c.msStore c.tStore]
            createdAt := c.tStore, lastActive := c.tStore } hqfall st.chatSessions)

/-! ## Claims about the chat actions -/

/-- C4 counterexample: the claim says the lazily built fallback session is
used in-memory only and is not inserted into the Store's session
collection.  Sending a message to the absent id `session-x` on an empty
store leaves the store holding exactly that session, with the user message
and the assistant reply. -/
theorem claim4_counterexample :
    (sessionFind (chatCallFinal "session-x" {} sampleChatCallOk) "session-x").isSome
      = true ∧
    sessionMessages (chatCallFinal "session-x" {} sampleChatCallOk) "session-x"
      = some [userChatMessage "hello" 10 "t10",
        aiMessage 11 "t11" (generalResponses.getD 0 "") "general" (ratDec 7 10) none] := by
  constructor <;> decide

/-- C4 (amended): when `sendChatMessage` is called with a sessionId absent
from the store, the lazily built fallback session (already carrying the
optimistic user message) IS appended to the Store's session collection in
the action's first state update, and the session is still present when the
action completes. -/
theorem claim4_fallback_session_is_inserted
    (st : StoreState) (sid text : String)
    (adapterResult : Except Unit (List ChatMessage)) (nowMs : Nat) (now : String)
    (habs : st.chatSessions.any (fun x => x.sessionId == sid) = false) :
    (storeSendChatMessage st sid text adapterResult nowMs now).err = none ∧
    (storeSendChatMessage st sid text adapterResult nowMs now).trace.head?.map
        (fun s1 => s1.chatSessions)
      = some (st.chatSessions ++
        [{ sessionId := sid, messages := [userChatMessage text nowMs now],
           createdAt := now, lastActive := now }]) ∧
    (sessionFind ((storeSendChatMessage st sid text adapterResult nowMs now).final st)
        sid).isSome = true := by
  have hnone : st.chatSessions.find? (fun x => x.sessionId == sid) = none := by
    rw [List.find?_eq_none]
    intro x hx hpx
    have hTrue : st.chatSessions.any (fun x => x.sessionId == sid) = true :=
      List.any_eq_true.mpr ⟨x, hx, hpx⟩
    rw [habs] at hTrue
    exact Bool.false_ne_true hTrue
  have happ : (st.chatSessions ++
      [({ sessionId := sid
          messages := [] ++ [userChatMessage text nowMs now]
          createdAt := now
          lastActive := now } : ChatSession)]).find?
        (fun x => x.sessionId == sid)
      = some { sessionId := sid
               messages := [] ++ [userChatMessage text nowMs now]
               createdAt := now
               lastActive := now } := by
    rw [find?_append_none _ hnone]
    exact List.find?_cons_of_pos _ (by simp)
  cases adapterResult with
  | ok responses =>
    refine ⟨?_, ?_, ?_⟩
    · simp only [storeSendChatMessage, hnone, habs, Bool.false_eq_true, if_false]
    · simp only [storeSendChatMessage, hnone, habs, Bool.false_eq_true, if_false]
      rfl
    · simp only [storeSendChatMessage, hnone, habs, Bool.false_eq_true, if_false,
        ActionResult.final]
      exact Option.isSome_iff_exists.mpr
        ⟨_, find?_map_update (fun (x : ChatSession) => x.sessionId == sid)
          (fun _ => { sessionId := sid
                      messages := ([] ++ [userChatMessage text nowMs now]) ++ responses
                      createdAt := now, lastActive := now })
          (fun a _ => by simp) _ _ happ⟩
  | error e =>
    refine ⟨?_, ?_, ?_⟩
    · simp only [storeSendChatMessage, hnone, habs, Bool.false_eq_true, if_false]
    · simp only [storeSendChatMessage, hnone, habs, Bool.false_eq_true, if_false]
      rfl
    · simp only [storeSendChatMessage, hnone, habs, Bool.false_eq_true, if_false,
        ActionResult.final]
      exact Option.isSome_iff_exists.mpr
        ⟨_, find?_map_update (fun (x : ChatSession) => x.sessionId == sid)
          (fun s => { s with messages := s.messages ++
            [{ id := "msg-" ++ toString nowMs ++ "-error", role := ChatRole.assistant,
               text := storeChatErrorText, timestamp := now }] })
          (fun a ha => ha) _ _ happ⟩

/-- Witness for C4 (amended): sending to the absent id `session-x`. -/
theorem claim4_fallback_session_is_inserted_witness :
    (({} : StoreState).chatSessions.any (fun x => x.sessionId == "session-x") = false) ∧
    ((storeSendChatMessage {} "session-x" "hello"
        (Except.ok [syntheticAdapterMessage 1 "t1"]) 0 "t0").err = none ∧
    (storeSendChatMessage {} "session-x" "hello"
        (Except.ok [syntheticAdapterMessage 1 "t1"]) 0 "t0").trace.head?.map
        (fun s1 => s1.chatSessions)
      = some (({} : StoreState).chatSessions ++
        [{ sessionId := "session-x", messages := [userChatMessage "hello" 0 "t0"],
           createdAt := "t0", lastActive := "t0" }]) ∧
    (sessionFind ((storeSendChatMessage {} "session-x" "hello"
        (Except.ok [syntheticAdapterMessage 1 "t1"]) 0 "t0").final {})
        "session-x").isSome = true) :=
  ⟨by decide, claim4_fallback_session_is_inserted {} "session-x" "hello"
    (Except.ok [syntheticAdapterMessage 1 "t1"]) 0 "t0" (by decide)⟩

/-- C7: over any sequence of complete `sendChatMessage` calls on one
session, the session's message list grows by exactly one block per call — a
user message immediately followed by the assistant response list, which
always holds exactly one assistant message (the adapter's synthetic error
message when the transport fails) — strictly append-only and in call order;
and no state committed by a chat call touches the message list of any other
session, so concurrent calls to different sessions cannot
cross-contaminate. -/
theorem claim7_chat_session_message_discipline
    (sid : String) (calls : List ChatCall) (st : StoreState) (s : ChatSession)
    (h : sessionFind st sid = some s) :
    (∃ s', sessionFind (chatSeqFinal sid st calls) sid = some s' ∧
      s'.messages = s.messages ++ (calls.map callBlock).flatten) ∧
    (∀ c : ChatCall, ∃ assistants, callBlock c
        = userChatMessage c.text c.msStore c.tStore :: assistants ∧
      assistants ≠ [] ∧ (∀ m ∈ assistants, m.role = ChatRole.assistant) ∧
      (c.transportFails = true →
        assistants = [syntheticAdapterMessage c.msRemote c.tRemote])) ∧
    (∀ (st' : StoreState) (c : ChatCall) (sid' : String), sid' ≠ sid →
      ∀ s2 ∈ (chatPipeline st' sid c).trace,
        sessionMessages s2 sid' = sessionMessages st' sid') := by
  refine ⟨?_, ?_, ?_⟩
  · induction calls generalizing st s with
    | nil => exact ⟨s, h, by simp⟩
    | cons c cs ih =>
      obtain ⟨s1, h1, hm1⟩ := chat_call_appends st sid c s h
      obtain ⟨s', h', hm'⟩ := ih (chatCallFinal sid st c) s1 h1
      refine ⟨s', h', ?_⟩
      rw [hm', hm1, List.map_cons, List.flatten_cons, List.append_assoc]
  · intro c
    obtain ⟨m, hm, hrole⟩ := adapterMsgs_singleton c
    refine ⟨adapterMsgs c, rfl, ?_, ?_, ?_⟩
    · rw [hm]; exact List.cons_ne_nil m []
    · intro x hx
      rw [hm] at hx
      rcases List.mem_singleton.mp hx with rfl
      exact hrole
    · intro hfail
      unfold adapterMsgs
      rw [hfail]
      rfl
  · intro st' c sid' hne s2 hs2
    unfold sessionMessages
    rw [chat_other_sessions_preserved st' sid c sid' hne s2 hs2]

/-- Witness for C7: two calls (one transport success, one failure) on the
seeded session store. -/
theorem claim7_chat_session_message_discipline_witness :
    (sessionFind chatStore "session-001" = some sampleSession) ∧
    ((∃ s', sessionFind
        (chatSeqFinal "session-001" chatStore [sampleChatCallOk, sampleChatCallFail])
        "session-001" = some s' ∧
      s'.messages = sampleSession.messages ++
        ([sampleChatCallOk, sampleChatCallFail].map callBlock).flatten) ∧
    (∀ c : ChatCall, ∃ assistants, callBlock c
        = userChatMessage c.text c.msStore c.tStore :: assistants ∧
      assistants ≠ [] ∧ (∀ m ∈ assistants, m.role = ChatRole.assistant) ∧
      (c.transportFails = true →
        assistants = [syntheticAdapterMessage c.msRemote c.tRemote])) ∧
    (∀ (st' : StoreState) (c : ChatCall) (sid' : String), sid' ≠ "session-001" →
      ∀ s2 ∈ (chatPipeline st' "session-001" c).trace,
        sessionMessages s2 sid' = sessionMessages st' sid')) :=
  ⟨by decide, claim7_chat_session_message_discipline "session-001"
    [sampleChatCallOk, sampleChatCallFail] chatStore sampleSession (by decide)⟩

/-- C10 (implicit): the chat Domain Adapter never rejects — on transport
failure it resolves with exactly one synthetic assistant message of
confidence 0 — so the Store's own catch branch cannot fire for
adapter/transport failures, and the in-conversation error message the user
sees on a transport failure is the adapter's text, not the Store's. -/
theorem claim10_chat_adapter_never_rejects
    (st : StoreState) (sid : String) (c : ChatCall) (s : ChatSession)
    (h : sessionFind st sid = some s) :
    (∀ (transport : Except Unit (List ChatMessage)) (nowMs : Nat) (now : String),
      ∃ msgs, chatbotAdapterSendE transport nowMs now = Except.ok msgs) ∧
    (∀ (nowMs : Nat) (now : String),
      chatbotAdapterSendE (Except.error ()) nowMs now
        = Except.ok [syntheticAdapterMessage nowMs now] ∧
      (syntheticAdapterMessage nowMs now).role = ChatRole.assistant ∧
      (syntheticAdapterMessage nowMs now).confidence = some 0 ∧
      (syntheticAdapterMessage nowMs now).text = adapterErrorText) ∧
    (c.transportFails = true →
      ∃ s', sessionFind (chatCallFinal sid st c) sid = some s' ∧
        s'.messages = s.messages ++ [userChatMessage c.text c.msStore c.tStore,
          syntheticAdapterMessage c.msRemote c.tRemote]) ∧
    adapterErrorText ≠ storeChatErrorText := by
  refine ⟨?_, ?_, ?_, ?_⟩
  · intro transport nowMs now
    cases transport with
    | ok data => exact ⟨data, rfl⟩
    | error e => exact ⟨[syntheticAdapterMessage nowMs now], rfl⟩
  · intro nowMs now
    exact ⟨rfl, rfl, rfl, rfl⟩
  · intro hfail
    obtain ⟨s', hs', hm⟩ := chat_call_appends st sid c s h
    refine ⟨s', hs', ?_⟩
    rw [hm]
    unfold callBlock adapterMsgs
    rw [hfail]
    rfl
  · decide

/-- Witness for C10: a failing transport call on the seeded session store. -/
theorem claim10_chat_adapter_never_rejects_witness :
    (sessionFind chatStore "session-001" = some sampleSession) ∧
    ((∀ (transport : Except Unit (List ChatMessage)) (nowMs : Nat) (now : String),
      ∃ msgs, chatbotAdapterSendE transport nowMs now = Except.ok msgs) ∧
    (∀ (nowMs : Nat) (now : String),
      chatbotAdapterSendE (Except.error ()) nowMs now
        = Except.ok [syntheticAdapterMessage nowMs now] ∧
      (syntheticAdapterMessage nowMs now).role = ChatRole.assistant ∧
      (syntheticAdapterMessage nowMs now).confidence = some 0 ∧
      (syntheticAdapterMessage nowMs now).text = adapterErrorText) ∧
    (sampleChatCallFail.transportFails = true →
      ∃ s', sessionFind (chatCallFinal "session-001" chatStore sampleChatCallFail)
          "session-001" = some s' ∧
        s'.messages = sampleSession.messages ++
          [userChatMessage sampleChatCallFail.text sampleChatCallFail.msStore
            sampleChatCallFail.tStore,
           syntheticAdapterMessage sampleChatCallFail.msRemote
            sampleChatCallFail.tRemote]) ∧
    adapterErrorText ≠ storeChatErrorText) :=
  ⟨by decide, claim10_chat_adapter_never_rejects chatStore "session-001"
    sampleChatCallFail sampleSession (by decide)⟩

end Railway
